import Mathlib

/-!
Verification development for the playme API client (python-playmeapi).

The development shallowly embeds the request-construction and
response-mapping pipeline of `playme/core.py` and `playme/item.py`:

* `QueryString` (canonical, sorted query strings) — embedded as
  association lists `QS` over `QVal` values, with the sorted-key
  iteration, url-encoding, repr, hash and comparison of the source.
* `Response` / `ResponseStatus` — embedded over a JSON value type
  `JVal`; `json.loads` belongs to the Python standard library (an
  external collaborator), so a constructor takes the parse outcome
  (`Option JVal`, `none` = the `ValueError` of a failed parse).
* `Request` and `Method` — URL construction, equality and hashing.
* `Item` / `ItemsCollection` — the entity-casting layer, embedded over
  a Python-value type `PyObj`, with the label-unwrapping constructor,
  collection coercion/deduplication, and the exception behaviour of
  CPython 2 (which exceptions are caught where).

Where CPython 2 leaves an order unspecified (hash-table iteration
order of `dict`), the embedding uses the sorted key order as a
deterministic abstraction; every place this happens is marked.
-/

namespace Playme

/-- A scalar Python value used in query strings: the source applies
`str()` to every value at `QueryString.__init__` time, and the doctests
exercise `str` and `int` values.  `QVal.s` models a Python 2 ASCII
string (for non-ASCII data `str(...).encode('utf-8')` would raise
`UnicodeEncodeError` in the source; such inputs are outside the claims). -/
inductive QVal where
  | s : String → QVal
  | i : Int → QVal
deriving DecidableEq

/-- Python `str()` of a `QVal`: identity on strings, decimal form of ints. -/
def QVal.toPyStr : QVal → String
  | .s v => v
  | .i v => toString v

/-- A Python dict, as the sequence of key/value assignments that built it.
Lookup uses the last assignment for a key (Python assignment overwrites). -/
abbrev QS := List (String × QVal)

/-- Lookup in a dict modelled as an assignment sequence: the last
assignment to `k` wins, as in Python. -/
def lookupLastQ : QS → String → Option QVal
  | [], _ => none
  | (k', v) :: rest, k =>
    match lookupLastQ rest k with
    | some w => some w
    | none => if k' = k then some v else none

/-- `k in d` for the modelled dict. -/
def hasKeyQ (q : QS) (k : String) : Bool :=
  q.any (fun p => p.1 = k)

/-- `QueryString.__init__`: stores every value as `str(value)`
(utf-8 encoded; byte-identical for the ASCII data of the claims). -/
def qsInit (items : QS) : QS :=
  items.map (fun p => (p.1, QVal.s p.2.toPyStr))

/-- `dict.update`: a later assignment sequence appended to the current one
(so later assignments win on lookup, as in Python). -/
def qsUpdate (q kw : QS) : QS := q ++ kw

/-- Lexicographic comparison of character sequences by codepoint:
the order `list.sort()` uses on Python 2 byte strings (UTF-8 bytes
order the same way as codepoints). -/
def charsLe : List Char → List Char → Bool
  | [], _ => true
  | _ :: _, [] => false
  | a :: as, b :: bs =>
    if a.toNat < b.toNat then true
    else if b.toNat < a.toNat then false
    else charsLe as bs

/-- Lexicographic string comparison (ascending), see `charsLe`. -/
def strLe (a b : String) : Bool :=
  charsLe a.data b.data

/-- Ascending lexicographic key order, as a relation on strings. -/
def keyLe (a b : String) : Prop := strLe a b = true

instance : DecidableRel keyLe := fun a b => instDecidableEqBool (strLe a b) true

/-- Strict ascending lexicographic key order. -/
def keyLt (a b : String) : Prop := keyLe a b ∧ a ≠ b

/-- The sorted, duplicate-free key list: `keys = dict.keys(); keys.sort()`
of `QueryString.__iter__` (dict keys are unique; `sort()` is ascending
lexicographic byte order, embedded by `keyLe`). -/
def qsKeys (q : QS) : List String :=
  (q.map Prod.fst).dedup.insertionSort keyLe

/-- `QueryString.items()`: `(k, self[k])` for the sorted keys. -/
def qsItems (q : QS) : List (String × QVal) :=
  (qsKeys q).map (fun k => (k, (lookupLastQ q k).getD (QVal.s "")))

/-- `QueryString.values()`: `self[k]` for the sorted keys. -/
def qsValues (q : QS) : List QVal :=
  (qsItems q).map Prod.snd

/-- UTF-8 bytes of a character (as `Nat`s), the standard encoding. -/
def utf8EncodeCharNat (c : Char) : List Nat :=
  let n := c.toNat
  if n < 0x80 then [n]
  else if n < 0x800 then [0xC0 + n / 64, 0x80 + n % 64]
  else if n < 0x10000 then
    [0xE0 + n / 4096, 0x80 + n / 64 % 64, 0x80 + n % 64]
  else
    [0xF0 + n / 262144, 0x80 + n / 4096 % 64, 0x80 + n / 64 % 64, 0x80 + n % 64]

/-- UTF-8 bytes of a string (as `Nat`s). -/
def strBytes : List Char → List Nat
  | [] => []
  | c :: cs => utf8EncodeCharNat c ++ strBytes cs

/-- The `always_safe` set of Python 2 `urllib`: letters, digits, `_.-`. -/
def isSafeByte (b : Nat) : Bool :=
  (65 ≤ b && b ≤ 90) || (97 ≤ b && b ≤ 122) || (48 ≤ b && b ≤ 57) ||
  b == 95 || b == 46 || b == 45

/-- Uppercase hexadecimal digit, as used by `urllib.quote`. -/
def hexDigitChar (n : Nat) : Char :=
  if n < 10 then Char.ofNat (48 + n) else Char.ofNat (55 + n)

/-- `urllib.quote_plus` on one byte: safe bytes kept, space becomes `+`,
every other byte becomes `%XX` with uppercase hex. -/
def quoteByte (b : Nat) : String :=
  if isSafeByte b then String.singleton (Char.ofNat b)
  else if b == 32 then "+"
  else String.singleton '%' ++ String.singleton (hexDigitChar (b / 16 % 16))
       ++ String.singleton (hexDigitChar (b % 16))

/-- `urllib.quote_plus` over the UTF-8 bytes of a string. -/
def quotePlus (s : String) : String :=
  String.join ((strBytes s.data).map quoteByte)

/-- `urllib.urlencode` over an item sequence:
`'&'.join('%s=%s' % (quote_plus(str(k)), quote_plus(str(v))))`. -/
def urlencodePairs (l : List (String × QVal)) : String :=
  String.intercalate "&" (l.map (fun p => quotePlus p.1 ++ "=" ++ quotePlus p.2.toPyStr))

/-- `str(QueryString)`: `urlencode(self)`, which iterates `self.items()`
(the sorted items, because `QueryString` overloads `items`). -/
def qsStr (q : QS) : String :=
  urlencodePairs (qsItems q)

/-- CPython 2 string hash (64-bit) over a byte sequence:
`x = s[0] << 7; for c in s: x = (1000003*x) ^ c; x ^= len; x == -1 -> -2`. -/
def pyHashBytes (bs : List Nat) : Int :=
  match bs with
  | [] => 0
  | b0 :: _ =>
    let x0 : Nat := (b0 * 128) % 2 ^ 64
    let x : Nat := bs.foldl (fun x b => (Nat.xor ((1000003 * x) % 2 ^ 64) b) % 2 ^ 64) x0
    let x : Nat := Nat.xor x (bs.length % 2 ^ 64)
    let ix : Int := if x < 2 ^ 63 then (x : Int) else (x : Int) - 2 ^ 64
    if ix = -1 then -2 else ix

/-- Python `hash` of a string (its UTF-8 bytes in Python 2). -/
def pyHashStr (s : String) : Int :=
  pyHashBytes (strBytes s.data)

/-- `QueryString.__hash__`: `hash(str(self))`. -/
def qsHash (q : QS) : Int :=
  pyHashStr (qsStr q)

/-- The pairs shown by `QueryString.__repr__`: a copy of the dict with
the `apikey` entry deleted.  CPython 2 prints a dict's pairs in
hash-table order; the embedding lists them in the canonical sorted
order (which pairs appear is all the claims depend on). -/
def qsReprPairs (q : QS) : List (String × QVal) :=
  (qsItems q).filter (fun p => p.1 ≠ "apikey")

/-- `Method.__getattribute__`: a non-private attribute name (one that
does not start with `_`) yields `Method('.'.join([self, name]))`, the
current path, a dot and the name; private names fall through to
ordinary attribute lookup (`none` here). -/
def methodGetattr (m name : String) : Option String :=
  if name.data.head? = some '_' then none
  else some (m ++ "." ++ name)

/-- The three shapes the source accepts for `Request`'s second argument:
omitted (`None`), a plain `dict`, or an already-built `QueryString`. -/
inductive QueryArg where
  | noArg : QueryArg
  | dict : QS → QueryArg
  | qs : QS → QueryArg

/-- `Request`: an API method name paired with its `QueryString`.
A `Method` is a `str` subclass, so the method is embedded as the
string itself (constructing from a string or from a `Method` coincide). -/
structure Request where
  method : String
  data : QS

/-- `Request.__init__`: a missing query becomes `dict()`, a plain dict is
wrapped by `QueryString(...)` (stringifying values), an existing
`QueryString` is kept as is; then `query_string.update(kwargs)` merges
the keyword arguments (raw, without re-stringifying). -/
def Request.init (api_method : String) (query : QueryArg) (kwargs : QS) : Request :=
  let q : QS :=
    match query with
    | .noArg => qsInit []
    | .dict d => qsInit d
    | .qs q => q
  { method := api_method, data := qsUpdate q kwargs }

/-- `Request.__str__`: `'http://api.playme.com/%s?%s' % (method, data)`. -/
def Request.toStr (r : Request) : String :=
  "http://api.playme.com/" ++ r.method ++ "?" ++ qsStr r.data

/-- `Request.__hash__`: `hash(str(self))`. -/
def Request.toHash (r : Request) : Int :=
  pyHashStr (Request.toStr r)

/-- `Request.__cmp__` compares `cmp(hash(self), hash(other))`; two
requests are equal exactly when their hashes coincide. -/
def Request.cmpEq (r1 r2 : Request) : Prop :=
  Request.toHash r1 = Request.toHash r2

/-- A JSON value as produced by `json.loads` (the Python standard
library JSON parser, an external collaborator of this code).  `num`
carries an integer: the claims only exercise integral JSON numbers. -/
inductive JVal where
  | str : String → JVal
  | num : Int → JVal
  | bool : Bool → JVal
  | null : JVal
  | arr : List JVal → JVal
  | obj : List (String × JVal) → JVal

/-- Whether a JSON value is an object (a Python mapping). -/
def JVal.isObj : JVal → Bool
  | .obj _ => true
  | _ => false

/-- Lookup in a JSON object; `json.loads` keeps the last duplicate key. -/
def jlookup : List (String × JVal) → String → Option JVal
  | [], _ => none
  | (k', v) :: rest, k =>
    match jlookup rest k with
    | some w => some w
    | none => if k' = k then some v else none

/-- Python `==` on the scalar values that can be dict keys
(`True == 1`, `u'error' == 'error'`; lists and dicts are unhashable
and never occur as keys). -/
def jkeyEq : JVal → JVal → Bool
  | .str a, .str b => a = b
  | .num a, .num b => a = b
  | .bool a, .bool b => a = b
  | .num a, .bool b => a = (cond b 1 0 : Int)
  | .bool a, .num b => (cond a 1 0 : Int) = b
  | .null, .null => true
  | _, _ => false

/-- Lookup by Python key equality in a Response's content (whose keys
are arbitrary hashable values when built from a pair sequence). -/
def clookup : List (JVal × JVal) → JVal → Option JVal
  | [], _ => none
  | (k', v) :: rest, k =>
    match clookup rest k with
    | some w => some w
    | none => if jkeyEq k' k then some v else none

/-- Hashable JSON values: everything except lists and dicts. -/
def jhashable : JVal → Bool
  | .arr _ => false
  | .obj _ => false
  | _ => true

/-- The (key, value) pair CPython's `dict.update` extracts from one
element of a non-mapping sequence argument: a two-element list with a
hashable head, a two-character string, or a two-key mapping (iterating
a mapping yields its keys; CPython's hash order is abstracted here as
first-listed order).  `none` models the raised TypeError/ValueError. -/
def updatePairOf : JVal → Option (JVal × JVal)
  | .arr [a, b] => if jhashable a then some (a, b) else none
  | .arr _ => none
  | .str s =>
    match s.data with
    | [c1, c2] => some (.str (String.singleton c1), .str (String.singleton c2))
    | _ => none
  | .obj kvs =>
    match (kvs.map Prod.fst).dedup with
    | [k1, k2] => some (.str k1, .str k2)
    | _ => none
  | _ => none

/-- All pairs of a sequence argument to `dict.update`, or `none` as soon
as one element fails. -/
def updatePairs : List JVal → Option (List (JVal × JVal))
  | [] => some []
  | e :: es =>
    match updatePairOf e, updatePairs es with
    | some p, some ps => some (p :: ps)
    | _, _ => none

/-- The mapping `self.update(x)` builds from the value found under
`response`: a mapping is used as is; a list (or tuple) of key/value
pairs is accepted by CPython's `dict.update` as well; an empty string
is an empty sequence; everything else raises (modelled by `none`). -/
def dictUpdateArg : JVal → Option (List (JVal × JVal))
  | .obj kvs => some (kvs.map (fun p => (JVal.str p.1, p.2)))
  | .arr elems => updatePairs elems
  | .str s => if s.data.isEmpty then some [] else none
  | _ => none

/-- `Response.__init__` applied to the outcome of `json.loads(response)`
(`none` = the parse raised ValueError): evaluates
`self.update(json.loads(response)['response'])` and turns any
ValueError/KeyError/TypeError into `ResponseError` (`.error ()`). -/
def responseInit (parsed : Option JVal) : Except Unit (List (JVal × JVal)) :=
  match parsed with
  | none => .error ()
  | some (.obj kvs) =>
    match jlookup kvs "response" with
    | none => .error ()
    | some v =>
      match dictUpdateArg v with
      | none => .error ()
      | some l => .ok l
  | some _ => .error ()

/-- Python `int()` digit-string value; `none` when empty or non-digit. -/
def digitsVal : List Char → Option Nat
  | [] => none
  | l =>
    l.foldl
      (fun acc c =>
        match acc with
        | none => none
        | some n => if 48 ≤ c.toNat ∧ c.toNat ≤ 57 then some (n * 10 + (c.toNat - 48)) else none)
      (some 0)

/-- Python whitespace stripped by `int(str)`. -/
def isPySpace (c : Char) : Bool :=
  c = ' ' || c = '\t' || c = '\n' || c = '\r' || c.toNat = 11 || c.toNat = 12

/-- Python 2 `int()` on a string: optional surrounding whitespace, an
optional sign, then decimal digits; anything else raises ValueError. -/
def pyIntOfStr (s : String) : Option Int :=
  let t := ((s.data.dropWhile isPySpace).reverse.dropWhile isPySpace).reverse
  match t with
  | '-' :: ds => (digitsVal ds).map (fun n => -(n : Int))
  | '+' :: ds => (digitsVal ds).map (fun n => (n : Int))
  | ds => (digitsVal ds).map (fun n => (n : Int))

/-- Python `int()` on a JSON value: ints pass through, `True`/`False`
are 1/0, strings are parsed, everything else raises TypeError. -/
def pyIntOf : JVal → Option Int
  | .num n => some n
  | .bool b => some (cond b 1 0)
  | .str s => pyIntOfStr s
  | _ => none

/-- `Response.status`: `try: error = self['error']; return
ResponseStatus(int(error['code'])) except KeyError: return success`.
Both the missing `error` key and a missing `code` inside it raise
KeyError and are caught (yielding 200); a non-mapping `error` or an
unparseable `code` raises TypeError/ValueError, which propagates
(`.error ()`). -/
def responseStatus (content : List (JVal × JVal)) : Except Unit Int :=
  match clookup content (.str "error") with
  | none => .ok 200
  | some (.obj kvs) =>
    match jlookup kvs "code" with
    | none => .ok 200
    | some cd =>
      match pyIntOf cd with
      | some n => .ok n
      | none => .error ()
  | some _ => .error ()

/-- The classes of `playme/item.py`: the base `Item` and
`ItemsCollection` plus the concrete entity/collection subclasses. -/
inductive Cls where
  | item
  | artist
  | album
  | track
  | itemsCollection
  | artists
  | albums
  | tracks
deriving DecidableEq

/-- The `label` class attribute (`None` on the two base classes). -/
def Cls.label : Cls → Option String
  | .item => none
  | .artist => some "artist"
  | .album => some "album"
  | .track => some "track"
  | .itemsCollection => none
  | .artists => some "artists"
  | .albums => some "albums"
  | .tracks => some "tracks"

/-- `cls.__name__`. -/
def Cls.clsName : Cls → String
  | .item => "Item"
  | .artist => "Artist"
  | .album => "Album"
  | .track => "Track"
  | .itemsCollection => "ItemsCollection"
  | .artists => "Artists"
  | .albums => "Albums"
  | .tracks => "Tracks"

/-- The `item_type` class attribute: only the collection classes define
it; accessing it on `Item` or an entity subclass raises AttributeError
(modelled by `none`). -/
def Cls.itemTypeAttr : Cls → Option Cls
  | .itemsCollection => some .item
  | .artists => some .artist
  | .albums => some .album
  | .tracks => some .track
  | _ => none

/-- The `api_method` class attribute of the entity classes: `None` on
the base `Item` (modelled by `none`; calling it raises TypeError), a
bound `Method` path on each concrete entity. -/
def Cls.apiMethodAttr : Cls → Option String
  | .artist => some "artist.get"
  | .album => some "album.get"
  | .track => some "track.get"
  | _ => none

/-- `ENTITIES`, the registered classes. -/
def ENTITIES : List Cls := [.artist, .artists, .album, .albums, .track, .tracks]

/-- `LABEL2CLS`: the label-to-class registry built from `ENTITIES`
(`CLS2LABEL` inverted; all labels are distinct). -/
def LABEL2CLS (k : String) : Option Cls :=
  ENTITIES.find? (fun c => c.label = some k)

/-- A Python value flowing through the entity layer: scalars, lists,
dicts, `Item` instances (dict subclasses tagged with their class) and
`ItemsCollection` instances (tuple subclasses tagged with their class).
Dict keys are strings: every dict reaching this layer went through
`str_keys` or is a parsed JSON object. -/
inductive PyObj where
  | pstr : String → PyObj
  | pint : Int → PyObj
  | pbool : Bool → PyObj
  | pnone : PyObj
  | plist : List PyObj → PyObj
  | pdict : List (String × PyObj) → PyObj
  | pitem : Cls → List (String × PyObj) → PyObj
  | pcoll : Cls → List PyObj → PyObj

/-- Last-wins lookup for dicts in the entity layer. -/
def lookupLastP : List (String × PyObj) → String → Option PyObj
  | [], _ => none
  | (k', v) :: rest, k =>
    match lookupLastP rest k with
    | some w => some w
    | none => if k' = k then some v else none

/-- `k in d` for the entity layer. -/
def hasKeyP (l : List (String × PyObj)) (k : String) : Bool :=
  l.any (fun p => p.1 = k)

/-- `del d[k]`: every assignment to `k` removed. -/
def removeKeyP (l : List (String × PyObj)) (k : String) : List (String × PyObj) :=
  l.filter (fun p => p.1 ≠ k)

/-- Sorted duplicate-free key list of an entity-layer dict (used where
CPython iterates a dict in hash-table order: the embedding fixes the
ascending key order as its deterministic abstraction of that order). -/
def canonKeysP (l : List (String × PyObj)) : List String :=
  (l.map Prod.fst).dedup.insertionSort keyLe

/-- Canonical form of a dict: sorted distinct keys, each with its
last-wins value. -/
def dictCanon (l : List (String × PyObj)) : List (String × PyObj) :=
  (canonKeysP l).map (fun k => (k, (lookupLastP l k).getD .pnone))

mutual

/-- Normal form giving Python `==` on entity-layer values: `True == 1`,
dict comparison ignores order, duplicate assignments and the
dict-subclass tag (`Item(a=1) == {'a': 1}`), tuple comparison ignores
the tuple-subclass tag; lists and tuples compare elementwise. -/
def pyNorm : PyObj → PyObj
  | .pstr s => .pstr s
  | .pint n => .pint n
  | .pbool b => .pint (cond b 1 0)
  | .pnone => .pnone
  | .plist l => .plist (pyNormList l)
  | .pdict d => .pdict (dictCanon (pyNormPairs d))
  | .pitem _ d => .pdict (dictCanon (pyNormPairs d))
  | .pcoll _ l => .pcoll .itemsCollection (pyNormList l)

/-- `pyNorm` over a list of values. -/
def pyNormList : List PyObj → List PyObj
  | [] => []
  | x :: xs => pyNorm x :: pyNormList xs

/-- `pyNorm` over the values of a pair list. -/
def pyNormPairs : List (String × PyObj) → List (String × PyObj)
  | [] => []
  | (k, v) :: rest => (k, pyNorm v) :: pyNormPairs rest

end

mutual

/-- Structural equality of entity-layer values (used on normal forms). -/
def pyObjBEq : PyObj → PyObj → Bool
  | .pstr a, .pstr b => a = b
  | .pint a, .pint b => a = b
  | .pbool a, .pbool b => a = b
  | .pnone, .pnone => true
  | .plist a, .plist b => pyListBEq a b
  | .pdict a, .pdict b => pyPairsBEq a b
  | .pitem c a, .pitem c' b => c = c' && pyPairsBEq a b
  | .pcoll c a, .pcoll c' b => c = c' && pyListBEq a b
  | _, _ => false

/-- `pyObjBEq` elementwise. -/
def pyListBEq : List PyObj → List PyObj → Bool
  | [], [] => true
  | x :: xs, y :: ys => pyObjBEq x y && pyListBEq xs ys
  | _, _ => false

/-- `pyObjBEq` over pair lists. -/
def pyPairsBEq : List (String × PyObj) → List (String × PyObj) → Bool
  | [], [] => true
  | (k, v) :: r, (k', v') :: r' => k = k' && pyObjBEq v v' && pyPairsBEq r r'
  | _, _ => false

end

/-- Python `==` on entity-layer values: structural equality of normal
forms. -/
def pyEq (a b : PyObj) : Bool :=
  pyObjBEq (pyNorm a) (pyNorm b)

/-- Python truthiness: empty containers, `0`, `''`, `False` and `None`
are falsy. -/
def pyTruthy : PyObj → Bool
  | .pstr s => !s.data.isEmpty
  | .pint n => n != 0
  | .pbool b => b
  | .pnone => false
  | .plist l => !l.isEmpty
  | .pdict d => !d.isEmpty
  | .pitem _ d => !d.isEmpty
  | .pcoll _ l => !l.isEmpty

/-- `str(k)` for values usable as dict keys.  Lists and dicts are
unhashable (`dict(...)` raises TypeError before `str` is reached,
modelled by `none`).  CPython would admit `Item`/`ItemsCollection`
keys (both are hashable through `repr`, whose dict ordering is
interpreter-specific); the embedding treats those exotic keys as
failures as well. -/
def pyStrKey : PyObj → Option String
  | .pstr s => some s
  | .pint n => some (toString n)
  | .pbool b => some (cond b "True" "False")
  | .pnone => some "None"
  | _ => none

/-- The (key, value) pair `dict(...)` extracts from one element of a
sequence: a two-element list or tuple, a two-character string, or a
two-key dict (iterating it yields its keys, in the embedding's
canonical order); anything else raises ValueError/TypeError. -/
def pairFromElemP : PyObj → Option (PyObj × PyObj)
  | .plist [a, b] => some (a, b)
  | .plist _ => none
  | .pcoll _ [a, b] => some (a, b)
  | .pcoll _ _ => none
  | .pstr s =>
    match s.data with
    | [c1, c2] => some (.pstr (String.singleton c1), .pstr (String.singleton c2))
    | _ => none
  | .pdict d =>
    match canonKeysP d with
    | [k1, k2] => some (.pstr k1, .pstr k2)
    | _ => none
  | .pitem _ d =>
    match canonKeysP d with
    | [k1, k2] => some (.pstr k1, .pstr k2)
    | _ => none
  | _ => none

/-- `dict(pairs)` with `str` applied to each key, over the elements of
a sequence; `none` as soon as an element fails. -/
def pairsToKw : List PyObj → Option (List (String × PyObj))
  | [] => some []
  | e :: es =>
    match pairFromElemP e with
    | none => none
    | some (k, v) =>
      match pyStrKey k with
      | none => none
      | some ks =>
        match pairsToKw es with
        | none => none
        | some rest => some ((ks, v) :: rest)

/-- `str_keys(d)`: a dict (or `Item`) keeps its (already string) keys;
a list or tuple goes through `dict(d)` pair extraction; a string
iterates its characters (so only the empty string succeeds, as an
empty dict); scalars are not iterable (TypeError, `none`). -/
def toKwargs : PyObj → Option (List (String × PyObj))
  | .pdict d => some d
  | .pitem _ d => some d
  | .plist elems => pairsToKw elems
  | .pcoll _ elems => pairsToKw elems
  | .pstr s => pairsToKw (s.data.map (fun c => .pstr (String.singleton c)))
  | _ => none

/-- `isinstance(x, cls)` for the item classes: every entity instance is
an `Item`; there is no other subclassing among them; dicts, tuples and
scalars are not `Item`s. -/
def isInstanceOf (x : PyObj) (c : Cls) : Bool :=
  match x with
  | .pitem c' _ => c' = c || c = .item
  | _ => false

/-- Exceptions distinguished by the entity layer: which handler catches
them is all that matters (`except (ValueError, TypeError, ...)`). -/
inductive PyExc where
  | typeOrValueErr : PyExc
  | attrErr : PyExc
  | keyErr : PyExc
  | notImplErr : String → PyExc
  | apiErr : String → PyExc
deriving DecidableEq

/-- Outcome of running a piece of embedded Python: a value, a raised
exception, or recursion-bound exhaustion (the bound is an artifact of
the embedding; every theorem supplies enough fuel). -/
inductive PyRes (α : Type) where
  | ok : α → PyRes α
  | exc : PyExc → PyRes α
  | nofuel : PyRes α
deriving DecidableEq

/-- `v[k]` for a string key: dict-likes look the key up (KeyError when
missing); every other value raises TypeError. -/
def subscriptP (v : PyObj) (k : String) : PyRes PyObj :=
  match v with
  | .pdict d =>
    match lookupLastP d k with
    | some w => .ok w
    | none => .exc .keyErr
  | .pitem _ d =>
    match lookupLastP d k with
    | some w => .ok w
    | none => .exc .keyErr
  | _ => .exc .typeOrValueErr

/-- The element sequence of `f(*v)` or `[i for i in v]`: lists and
tuples yield their elements, strings their characters, dict-likes
their keys (CPython hash order, abstracted as the canonical order);
scalars raise TypeError. -/
def iterElemsP : PyObj → Option (List PyObj)
  | .plist l => some l
  | .pcoll _ l => some l
  | .pstr s => some (s.data.map (fun c => .pstr (String.singleton c)))
  | .pdict d => some ((canonKeysP d).map (fun k => .pstr k))
  | .pitem _ d => some ((canonKeysP d).map (fun k => .pstr k))
  | _ => none

mutual

/-- `Item.__init__(**kwargs)`: when the class label is a key of
`kwargs`, unwrap that payload through `str_keys` and run the sibling
loop on the remaining fields; otherwise store `kwargs` as is. -/
def itemInit (fuel : Nat) (c : Cls) (kwargs : List (String × PyObj)) :
    PyRes (List (String × PyObj)) :=
  match fuel with
  | 0 => .nofuel
  | f + 1 =>
    match c.label with
    | none => .ok kwargs
    | some lbl =>
      if hasKeyP kwargs lbl then
        match lookupLastP kwargs lbl with
        | none => .ok kwargs
        | some payload =>
          match toKwargs payload with
          | none => .exc .typeOrValueErr
          | some kw0 => processSiblings f kw0 (removeKeyP kwargs lbl)
      else .ok kwargs
termination_by (fuel, 0, 0)

/-- The sibling loop of `Item.__init__`: for each remaining field
`(k, v)`, `kw[k] = LABEL2CLS[k](*v[LABEL2CLS[k].item_type.label])`
with `except KeyError: pass`.  An unregistered key, or a registered
key whose payload lacks the nested label, is silently dropped; a
registered entity label raises AttributeError (`item_type` is only
defined on collection classes); tuple-unpacking or subscripting
failures raise TypeError.  (CPython iterates `kwargs.items()` in hash
order; the embedding processes the listed order.) -/
def processSiblings (fuel : Nat) (kw : List (String × PyObj))
    (rest : List (String × PyObj)) : PyRes (List (String × PyObj)) :=
  match rest with
  | [] => .ok kw
  | (k, v) :: rs =>
    match LABEL2CLS k with
    | none => processSiblings fuel kw rs
    | some c2 =>
      match c2.itemTypeAttr with
      | none => .exc .attrErr
      | some it =>
        match it.label with
        | none => processSiblings fuel kw rs
        | some lbl2 =>
          match subscriptP v lbl2 with
          | .exc .keyErr => processSiblings fuel kw rs
          | .exc e => .exc e
          | .nofuel => .nofuel
          | .ok payload2 =>
            match iterElemsP payload2 with
            | none => .exc .typeOrValueErr
            | some elems =>
              match collNew fuel c2 elems with
              | .ok items => processSiblings fuel (kw ++ [(k, .pcoll c2 items)]) rs
              | .exc e => .exc e
              | .nofuel => .nofuel
termination_by (fuel, 4, rest.length)

/-- `ItemsCollection.__new__(cls, *args)`: coerce every argument into
`cls.item_type`, dropping the ones that fail, are falsy, or repeat an
already kept item. -/
def collNew (fuel : Nat) (c : Cls) (args : List PyObj) : PyRes (List PyObj) :=
  match fuel with
  | 0 => .nofuel
  | f + 1 =>
    match c.itemTypeAttr with
    | none => .exc .attrErr
    | some it => collFold f it [] args
termination_by (fuel, 3, 0)

/-- The accumulation loop of `ItemsCollection.__new__`:
`if item and item not in casted: casted.append(item)`. -/
def collFold (fuel : Nat) (it : Cls) (casted : List PyObj) (args : List PyObj) :
    PyRes (List PyObj) :=
  match args with
  | [] => .ok casted
  | a :: rest =>
    match coerceOne fuel it a with
    | .ok none => collFold fuel it casted rest
    | .ok (some itm) =>
      if pyTruthy itm && !(casted.any (fun cd => pyEq itm cd)) then
        collFold fuel it (casted ++ [itm]) rest
      else collFold fuel it casted rest
    | .exc e => .exc e
    | .nofuel => .nofuel
termination_by (fuel, 2, args.length)

/-- One coercion step of `ItemsCollection.__new__`: an instance of the
item type passes through; otherwise `cls.item_type(**str_keys(item))`
is attempted, with ValueError/TypeError/AttributeError caught and
turned into `None` (`.ok none`). -/
def coerceOne (fuel : Nat) (it : Cls) (a : PyObj) : PyRes (Option PyObj) :=
  if isInstanceOf a it then .ok (some a)
  else
    match toKwargs a with
    | none => .ok none
    | some kw =>
      match itemInit fuel it kw with
      | .ok content => .ok (some (.pitem it content))
      | .exc .typeOrValueErr => .ok none
      | .exc .attrErr => .ok none
      | .exc e => .exc e
      | .nofuel => .nofuel
termination_by (fuel, 1, 0)

end

/-- `str(ResponseStatus(n))`: the `__status__` table of
`playme/core.py`, with the `'Unknown status code %i!'` fallback.
(The 14011 entry contains the literal line-continuation whitespace of
the source string.) -/
def statusDescr (n : Int) : String :=
  if n = 200 then "The request was successful"
  else if n = 402 then "User not enabled to use this function"
  else if n = 10010 then "Missing parameter"
  else if n = 10020 then "Invalid parameter"
  else if n = 10040 then "Too many parameters as primary key"
  else if n = 10050 then "Too many mutual exclusive parameters"
  else if n = 10810 then "Error while retrieving item data"
  else if n = 11000 then "Authentication Failure"
  else if n = 13000 then "Item not found"
  else if n = 13010 then "Item already exists"
  else if n = 13020 then "User already unsubscribed"
  else if n = 13040 then "Dependency item missing"
  else if n = 13110 then "Item not owned by the user associated to the UAT"
  else if n = 14010 then "Authorization failed"
  else if n = 14011 then
    "Missing user authentication token or authentication token                  not valid (possibly expired)"
  else if n = 14030 then "Permission denied"
  else if n = 14031 then "Invalid or missing apikey"
  else if n = 14032 then "Blacklisted apikey"
  else if n = 14033 then "Unauthorized call"
  else if n = 14034 then "Temporarily blocked"
  else if n = 14040 then "API not found"
  else if n = 16000 then "Search engine error"
  else if n = 20000 then "DB error"
  else if n = 20010 then "User already exists"
  else if n = 21000 then "Unable to assign credits"
  else "Unknown status code " ++ toString n ++ "!"

mutual

/-- A parsed JSON value as a Python value of the entity layer. -/
def jvalToPyObj : JVal → PyObj
  | .str s => .pstr s
  | .num n => .pint n
  | .bool b => .pbool b
  | .null => .pnone
  | .arr l => .plist (jvalListToPyObj l)
  | .obj kvs => .pdict (jvalPairsToPyObj kvs)

/-- `jvalToPyObj` elementwise. -/
def jvalListToPyObj : List JVal → List PyObj
  | [] => []
  | x :: xs => jvalToPyObj x :: jvalListToPyObj xs

/-- `jvalToPyObj` over object fields. -/
def jvalPairsToPyObj : List (String × JVal) → List (String × PyObj)
  | [] => []
  | (k, v) :: rest => (k, jvalToPyObj v) :: jvalPairsToPyObj rest

end

/-- `str(k)` for the hashable values that can be keys of a Response's
content (lists and dicts are unhashable and never occur as keys). -/
def jvalStrKey : JVal → String
  | .str s => s
  | .num n => toString n
  | .bool b => cond b "True" "False"
  | .null => "None"
  | .arr _ => ""
  | .obj _ => ""

/-- `str_keys(response)`: the Response content with stringified keys,
as the keyword arguments handed to the entity constructor. -/
def strKeysResp (content : List (JVal × JVal)) : List (String × PyObj) :=
  content.map (fun p => (jvalStrKey p.1, jvalToPyObj p.2))

/-- `Item.request(**kwargs)`, given the content of the Response the
bound API operation returns (the HTTP transport is an external
collaborator): an unbound operation (`api_method = None`) raises
TypeError when called, converted to `NotImplementedError` naming the
subtype; then a failed `status` access propagates; a non-success
status raises `core.Error(str(status))`; otherwise the entity is
built by `cls(**str_keys(response))`. -/
def itemRequest (fuel : Nat) (c : Cls) (resp : List (JVal × JVal)) :
    PyRes (List (String × PyObj)) :=
  match c.apiMethodAttr with
  | none => .exc (.notImplErr (c.clsName ++ ".api_method"))
  | some _ =>
    match responseStatus resp with
    | .error _ => .exc .typeOrValueErr
    | .ok n =>
      if n = 200 then itemInit fuel c (strKeysResp resp)
      else .exc (.apiErr (statusDescr n))

/-- `response[cls.label]`'s key: `self[None]` for the base class. -/
def labelKey (c : Cls) : JVal :=
  match c.label with
  | some l => .str l
  | none => .null

/-- The element sequence of `[i for i in payload]` on a JSON value:
arrays yield elements, objects their keys (CPython hash order,
abstracted as the canonical sorted order), strings their characters;
scalars raise TypeError. -/
def iterElemsJ : JVal → Option (List JVal)
  | .arr l => some l
  | .obj kvs => some (((kvs.map Prod.fst).dedup.insertionSort keyLe).map (fun k => .str k))
  | .str s => some (s.data.map (fun c => .str (String.singleton c)))
  | _ => none

/-- `ItemsCollection.fromResponseMessage(response)`: a failed `status`
access propagates; a non-success status raises
`core.Error(str(status))`; otherwise the collection is built by
`cls(*[i for i in response[cls.label]])` (a missing label raises
KeyError, a non-iterable payload TypeError). -/
def fromResponseMessage (fuel : Nat) (c : Cls) (resp : List (JVal × JVal)) :
    PyRes (List PyObj) :=
  match responseStatus resp with
  | .error _ => .exc .typeOrValueErr
  | .ok n =>
    if n = 200 then
      match clookup resp (labelKey c) with
      | none => .exc .keyErr
      | some payload =>
        match iterElemsJ payload with
        | none => .exc .typeOrValueErr
        | some elems => collNew fuel c (elems.map jvalToPyObj)
    else .exc (.apiErr (statusDescr n))

/-- Coercion of one argument into the base item type, as performed by
the generic `ItemsCollection` constructor: an `Item` instance passes
through, anything else goes through `Item(**str_keys(item))`, which
for the label-free base `Item` stores the keyword arguments
unchanged; `none` when `str_keys` raises. -/
def coerceBase (x : PyObj) : Option PyObj :=
  if isInstanceOf x .item then some x
  else (toKwargs x).map (fun kw => PyObj.pitem .item kw)

/-- The first occurrences of a list's elements under Python equality,
in first-seen relative order, elements equal to one of `seen`
excluded. -/
def firstOccurrences (seen : List PyObj) : List PyObj → List PyObj
  | [] => []
  | x :: xs =>
    if seen.any (fun y => pyEq x y) then firstOccurrences seen xs
    else x :: firstOccurrences (seen ++ [x]) xs

/- Order-theoretic facts about the key comparison used by `qsKeys`. -/

theorem charsLe_total : ∀ x y : List Char, charsLe x y = true ∨ charsLe y x = true
  | [], _ => Or.inl rfl
  | _ :: _, [] => Or.inr rfl
  | a :: as, b :: bs => by
    rcases Nat.lt_trichotomy a.toNat b.toNat with h | h | h
    · left; simp [charsLe, h]
    · rcases charsLe_total as bs with ih | ih
      · left; simp [charsLe, h, ih]
      · right; simp [charsLe, h.symm, ih]
    · right; simp [charsLe, h]

theorem charsLe_trans : ∀ x y z : List Char,
    charsLe x y = true → charsLe y z = true → charsLe x z = true
  | [], _, _, _, _ => rfl
  | _ :: _, [], _, h, _ => by simp [charsLe] at h
  | _ :: _, _ :: _, [], _, h => by simp [charsLe] at h
  | a :: as, b :: bs, c :: cs, h1, h2 => by
    rcases Nat.lt_trichotomy a.toNat b.toNat with hab | hab | hab <;>
      rcases Nat.lt_trichotomy b.toNat c.toNat with hbc | hbc | hbc
    · simp [charsLe, Nat.lt_trans hab hbc]
    · simp [charsLe, hbc ▸ hab]
    · simp [charsLe, hbc, Nat.lt_asymm hbc] at h2
    · simp [charsLe, hab ▸ hbc]
    · simp only [charsLe, hab, hbc, lt_irrefl, if_neg, ite_false] at h1 h2 ⊢
      simp only [hab, hbc, lt_irrefl, ite_false, if_neg] at *
      exact charsLe_trans as bs cs h1 h2
    · simp [charsLe, hbc, Nat.lt_asymm hbc] at h2
    · simp [charsLe, hab, Nat.lt_asymm hab] at h1
    · simp [charsLe, hab, Nat.lt_asymm hab] at h1
    · simp [charsLe, hab, Nat.lt_asymm hab] at h1

theorem charsLe_antisymm : ∀ x y : List Char,
    charsLe x y = true → charsLe y x = true → x = y
  | [], [], _, _ => rfl
  | [], _ :: _, _, h2 => by simp [charsLe] at h2
  | _ :: _, [], h1, _ => by simp [charsLe] at h1
  | a :: as, b :: bs, h1, h2 => by
    rcases Nat.lt_trichotomy a.toNat b.toNat with hab | hab | hab
    · simp [charsLe, hab, Nat.lt_asymm hab] at h2
    · have ha : a = b := by
        apply Char.eq_of_val_eq
        unfold Char.toNat at hab
        exact UInt32.toNat.inj hab
      subst ha
      simp only [charsLe, lt_irrefl, ite_false, if_neg] at h1 h2
      rw [charsLe_antisymm as bs h1 h2]
    · simp [charsLe, hab, Nat.lt_asymm hab] at h1

instance : IsTotal String keyLe := ⟨fun a b => charsLe_total a.data b.data⟩

instance : IsTrans String keyLe :=
  ⟨fun a b c => charsLe_trans a.data b.data c.data⟩

instance : IsAntisymm String keyLe := by
  constructor
  intro a b h1 h2
  have := charsLe_antisymm a.data b.data h1 h2
  cases a; cases b; simp_all

theorem qsKeys_sorted (q : QS) : (qsKeys q).Sorted keyLe :=
  List.sorted_insertionSort keyLe _

theorem qsKeys_nodup (q : QS) : (qsKeys q).Nodup :=
  (List.perm_insertionSort keyLe _).nodup_iff.mpr (List.nodup_dedup _)

theorem mem_qsKeys {q : QS} {k : String} : k ∈ qsKeys q ↔ k ∈ q.map Prod.fst := by
  rw [qsKeys, List.mem_insertionSort, List.mem_dedup]

theorem qsKeys_sorted_strict (q : QS) : (qsKeys q).Pairwise keyLt :=
  ((qsKeys_sorted q).and (qsKeys_nodup q)).imp (fun h => ⟨h.1, h.2⟩)

/- Extensionality: dicts with the same lookups canonicalize identically. -/

theorem lookupLastQ_isSome {q : QS} {k : String} :
    (lookupLastQ q k).isSome = true ↔ k ∈ q.map Prod.fst := by
  induction q with
  | nil => simp [lookupLastQ]
  | cons p rest ih =>
    simp only [lookupLastQ, List.map_cons, List.mem_cons]
    cases hr : lookupLastQ rest k with
    | some w => simp [hr] at ih; simp [ih]
    | none =>
      simp [hr] at ih
      by_cases hk : p.1 = k
      · simp [hk]
      · simp [hk, ih]
        exact fun h => hk h.symm

theorem lookupLastQ_map_val {q : QS} {k : String} (f : QVal → QVal) :
    lookupLastQ (q.map (fun p => (p.1, f p.2))) k = (lookupLastQ q k).map f := by
  induction q with
  | nil => simp [lookupLastQ]
  | cons p rest ih =>
    simp only [List.map_cons, lookupLastQ, ih]
    cases lookupLastQ rest k <;> by_cases hk : p.1 = k <;> simp [hk]

theorem lookupLastQ_qsInit {q : QS} {k : String} :
    lookupLastQ (qsInit q) k = (lookupLastQ q k).map (fun v => QVal.s v.toPyStr) :=
  lookupLastQ_map_val (fun v => QVal.s v.toPyStr)

theorem qsKeys_ext {q1 q2 : QS} (h : ∀ k, lookupLastQ q1 k = lookupLastQ q2 k) :
    qsKeys q1 = qsKeys q2 := by
  apply List.eq_of_perm_of_sorted ?_ (qsKeys_sorted q1) (qsKeys_sorted q2)
  apply (List.perm_ext_iff_of_nodup (qsKeys_nodup q1) (qsKeys_nodup q2)).mpr
  intro a
  rw [mem_qsKeys, mem_qsKeys, ← lookupLastQ_isSome, ← lookupLastQ_isSome, h a]

theorem qsItems_ext {q1 q2 : QS} (h : ∀ k, lookupLastQ q1 k = lookupLastQ q2 k) :
    qsItems q1 = qsItems q2 := by
  unfold qsItems
  rw [qsKeys_ext h]
  apply List.map_congr_left
  intro k _
  rw [h k]

theorem qsInit_ext {q1 q2 : QS} (h : ∀ k, lookupLastQ q1 k = lookupLastQ q2 k)
    (k : String) : lookupLastQ (qsInit q1) k = lookupLastQ (qsInit q2) k := by
  rw [lookupLastQ_qsInit, lookupLastQ_qsInit, h k]

theorem qsKeys_qsInit (q : QS) : qsKeys (qsInit q) = qsKeys q := by
  unfold qsKeys qsInit
  rw [List.map_map]
  rfl

theorem qsStr_qsInit (d : QS) : qsStr (qsInit d) = qsStr d := by
  unfold qsStr urlencodePairs qsItems
  rw [qsKeys_qsInit]
  congr 1
  rw [List.map_map, List.map_map]
  apply List.map_congr_left
  intro k _
  simp only [Function.comp, lookupLastQ_qsInit]
  cases h : lookupLastQ d k <;> simp [QVal.toPyStr]

/-- C1: two QueryStrings built from parameter mappings with identical
key/value content (whatever the insertion order) have identical string
form and hash, and `keys`, `values`, `items` and the string conversion
all iterate in ascending lexicographic key order. -/
theorem c1_queryString_canonical :
    (∀ q1 q2 : QS, (∀ k, lookupLastQ q1 k = lookupLastQ q2 k) →
      qsStr (qsInit q1) = qsStr (qsInit q2) ∧ qsHash (qsInit q1) = qsHash (qsInit q2))
    ∧ (∀ q : QS, (qsKeys q).Pairwise keyLt
        ∧ (qsItems q).map Prod.fst = qsKeys q
        ∧ qsValues q = (qsItems q).map Prod.snd
        ∧ qsStr q = urlencodePairs (qsItems q)) := by
  constructor
  · intro q1 q2 h
    have hi : qsItems (qsInit q1) = qsItems (qsInit q2) := qsItems_ext (qsInit_ext h)
    refine ⟨?_, ?_⟩
    · unfold qsStr; rw [hi]
    · unfold qsHash qsStr; rw [hi]
  · intro q
    refine ⟨qsKeys_sorted_strict q, ?_, rfl, rfl⟩
    unfold qsItems
    rw [List.map_map]
    exact List.map_id _

/-- C1 witness: the two insertion orders of the doctest mapping yield
the same url-encoded string. -/
theorem c1_queryString_canonical_witness :
    qsStr (qsInit [("country", QVal.s "it"), ("albumCode", QVal.i 1)]) =
      qsStr (qsInit [("albumCode", QVal.i 1), ("country", QVal.s "it")]) :=
  (c1_queryString_canonical.1 _ _ (by
    intro k
    by_cases h1 : ("country" : String) = k <;> by_cases h2 : ("albumCode" : String) = k
    · exact absurd (h1 ▸ h2) (by decide)
    · simp [lookupLastQ, h1, h2]
    · simp [lookupLastQ, h1, h2]
    · simp [lookupLastQ, h1, h2]
  )).1

/-- C3 counterexample: two QueryStrings that differ only in the value of
`apikey` have the same display pairs (repr) but different wire strings
and different hashes — so the `apikey` pair is not excluded from the
string hash and comparison are computed from (`hash(str(self))`, the
wire-encoded query string). -/
theorem c3_apikey_counterexample :
    qsReprPairs (qsInit [("apikey", QVal.s "a")]) = qsReprPairs (qsInit [("apikey", QVal.s "b")])
    ∧ qsStr (qsInit [("apikey", QVal.s "a")]) ≠ qsStr (qsInit [("apikey", QVal.s "b")])
    ∧ qsHash (qsInit [("apikey", QVal.s "a")]) ≠ qsHash (qsInit [("apikey", QVal.s "b")]) := by
  refine ⟨by decide, by decide, by decide⟩

/-- C3 amended: when `apikey` is present it is excluded from the repr
pairs but included in the wire-encoded query string, and the hash is
computed from that wire string (so hash and comparison include it). -/
theorem c3_apikey_amended (d : QS) (h : hasKeyQ d "apikey" = true) :
    (∀ p ∈ qsReprPairs (qsInit d), p.1 ≠ "apikey")
    ∧ (∃ v, ("apikey", v) ∈ qsItems (qsInit d))
    ∧ qsHash (qsInit d) = pyHashStr (qsStr (qsInit d)) := by
  refine ⟨?_, ?_, rfl⟩
  · intro p hp
    have := List.of_mem_filter hp
    simpa using this
  · have hk : "apikey" ∈ qsKeys (qsInit d) := by
      rw [mem_qsKeys]
      unfold qsInit
      rw [List.map_map]
      simp only [hasKeyQ, List.any_eq_true, decide_eq_true_eq] at h
      obtain ⟨p, hp, hpk⟩ := h
      exact List.mem_map.mpr ⟨p, hp, hpk⟩
    refine ⟨((lookupLastQ (qsInit d) "apikey").getD (QVal.s "")), ?_⟩
    unfold qsItems
    exact List.mem_map.mpr ⟨"apikey", hk, rfl⟩

/-- C3 amended witness at the doctest query. -/
theorem c3_apikey_amended_witness :
    (∀ p ∈ qsReprPairs (qsInit [("country", QVal.s "it"), ("apikey", QVal.s "k")]),
      p.1 ≠ "apikey")
    ∧ (∃ v, ("apikey", v) ∈ qsItems (qsInit [("country", QVal.s "it"), ("apikey", QVal.s "k")])) := by
  have := c3_apikey_amended [("country", QVal.s "it"), ("apikey", QVal.s "k")] (by decide)
  exact ⟨this.1, this.2.1⟩

/-- C9: on a `Method`, any attribute access whose name does not start
with an underscore yields the dot-joined method path; in particular
`Method('artist').getAlbums` is `Method('artist.getAlbums')`. -/
theorem c9_method_getattr :
    (∀ m name : String, name.data.head? ≠ some '_' →
      methodGetattr m name = some (m ++ "." ++ name))
    ∧ methodGetattr "artist" "getAlbums" = some "artist.getAlbums" := by
  constructor
  · intro m name h
    unfold methodGetattr
    rw [if_neg h]
  · decide

/-- C9 witness: the spec's example, via the universal statement. -/
theorem c9_method_getattr_witness :
    methodGetattr "artist" "getAlbums" = some ("artist" ++ "." ++ "getAlbums") :=
  c9_method_getattr.1 "artist" "getAlbums" (by decide)

theorem qsUpdate_nil (q : QS) : qsUpdate q [] = q := List.append_nil q

/-- C7: the string form of a Request is the fixed base endpoint, a
slash, the method path, a question mark and the canonical query string
(checked on the doctest example), and Requests built from the same
method and parameters — as a dict, as a QueryString, or as keyword
arguments — have equal URLs, equal hashes, and compare equal; the same
holds for two parameter dicts with identical key/value content. -/
theorem c7_request_url :
    (Request.toStr (Request.init "album.get"
        (.dict [("country", QVal.s "it"), ("albumCode", QVal.i 782378)]) [])
      = "http://api.playme.com/album.get?albumCode=782378&country=it")
    ∧ (∀ (m : String) (d : QS),
        Request.toStr (Request.init m (.dict d) []) = Request.toStr (Request.init m (.qs (qsInit d)) [])
        ∧ Request.toStr (Request.init m (.dict d) []) = Request.toStr (Request.init m .noArg d)
        ∧ Request.toHash (Request.init m (.dict d) []) = Request.toHash (Request.init m .noArg d)
        ∧ Request.cmpEq (Request.init m (.dict d) []) (Request.init m (.qs (qsInit d)) []))
    ∧ (∀ (m : String) (d1 d2 : QS), (∀ k, lookupLastQ d1 k = lookupLastQ d2 k) →
        Request.toStr (Request.init m (.dict d1) []) = Request.toStr (Request.init m (.dict d2) [])
        ∧ Request.cmpEq (Request.init m (.dict d1) []) (Request.init m (.dict d2) [])) := by
  refine ⟨by decide, ?_, ?_⟩
  · intro m d
    have hstr : Request.toStr (Request.init m (.dict d) [])
        = Request.toStr (Request.init m .noArg d) := by
      unfold Request.init Request.toStr
      simp only [qsUpdate_nil]
      show _ ++ qsStr (qsInit d) = _ ++ qsStr (qsUpdate (qsInit []) d)
      rw [qsStr_qsInit]
      rfl
    refine ⟨rfl, hstr, ?_, rfl⟩
    unfold Request.toHash
    rw [hstr]
  · intro m d1 d2 h
    have hi : qsItems (qsInit d1) = qsItems (qsInit d2) := qsItems_ext (qsInit_ext h)
    have hstr : Request.toStr (Request.init m (.dict d1) [])
        = Request.toStr (Request.init m (.dict d2) []) := by
      unfold Request.init Request.toStr qsStr
      simp only [qsUpdate_nil]
      rw [hi]
    exact ⟨hstr, by unfold Request.cmpEq Request.toHash; rw [hstr]⟩

/-- C7 witness: keyword-argument construction of the doctest request
yields the documented URL, via the universal route-equality statement. -/
theorem c7_request_url_witness :
    Request.toStr (Request.init "album.get" .noArg
        [("country", QVal.s "it"), ("albumCode", QVal.i 782378)])
      = "http://api.playme.com/album.get?albumCode=782378&country=it" := by
  have h2 := (c7_request_url.2.1 "album.get"
      [("country", QVal.s "it"), ("albumCode", QVal.i 782378)]).2.1
  rw [← h2]
  exact c7_request_url.1

/-- C6 counterexample: a body whose `response` value is a list of
key/value pairs — not a mapping — does not raise: `dict.update`
accepts the pair sequence and construction succeeds, against the
claim that construction raises whenever the value is not a mapping
(and the content is then not the inner value itself). -/
theorem c6_response_init_counterexample :
    responseInit (some (.obj [("response", .arr [.arr [.str "a", .str "b"]])]))
      = .ok [(.str "a", .str "b")]
    ∧ JVal.isObj (.arr [.arr [.str "a", .str "b"]]) = false :=
  ⟨rfl, rfl⟩

/-- C6 amended: construction raises ResponseError exactly when the body
is not valid JSON, the top level is not an object containing a
`response` key, or the value under `response` is not accepted by
`dict.update` (a mapping, or a sequence of key/value pairs); on a
mapping value the content is exactly the inner mapping. -/
theorem c6_response_init_amended :
    (responseInit none = .error ())
    ∧ (∀ t : JVal, JVal.isObj t = false → responseInit (some t) = .error ())
    ∧ (∀ kvs, jlookup kvs "response" = none → responseInit (some (.obj kvs)) = .error ())
    ∧ (∀ kvs v, jlookup kvs "response" = some v → dictUpdateArg v = none →
        responseInit (some (.obj kvs)) = .error ())
    ∧ (∀ kvs v l, jlookup kvs "response" = some v → dictUpdateArg v = some l →
        responseInit (some (.obj kvs)) = .ok l)
    ∧ (∀ kvs inner, jlookup kvs "response" = some (.obj inner) →
        responseInit (some (.obj kvs)) = .ok (inner.map (fun p => (JVal.str p.1, p.2)))) := by
  refine ⟨rfl, ?_, ?_, ?_, ?_, ?_⟩
  · intro t ht
    cases t <;> first | rfl | simp [JVal.isObj] at ht
  · intro kvs h
    simp [responseInit, h]
  · intro kvs v h1 h2
    simp [responseInit, h1, h2]
  · intro kvs v l h1 h2
    simp [responseInit, h1, h2]
  · intro kvs inner h1
    simp [responseInit, h1, dictUpdateArg]

/-- C6 witness: the doctest body parses to the documented content, and
the doctest error body `'spam'` (a JSON parse failure) raises. -/
theorem c6_response_init_witness :
    responseInit (some (.obj [("response", .obj [("api", .obj [("version", .str "1.0.0")])])]))
      = .ok [(.str "api", .obj [("version", .str "1.0.0")])]
    ∧ responseInit none = .error () :=
  ⟨c6_response_init_amended.2.2.2.2.2
      [("response", .obj [("api", .obj [("version", .str "1.0.0")])])]
      [("api", .obj [("version", .str "1.0.0")])] (by simp [jlookup]),
   c6_response_init_amended.1⟩

/-- C4 counterexample: a Response whose `error` value is a mapping with
no `code` field does not fail — the KeyError from `error['code']` is
caught by the same handler as a missing `error`, so `status` returns
the success code 200 instead of surfacing an error. -/
theorem c4_response_status_counterexample :
    responseStatus [(.str "error", .obj [])] = .ok 200
    ∧ responseStatus [(.str "error", .obj [])] ≠ .error () :=
  ⟨rfl, fun h => Except.noConfusion (rfl.trans h : (Except.ok 200 : Except Unit Int) = .error ())⟩

/-- C4 amended: no `error` key yields 200; `error.code` parseable as an
integer yields that integer; a present `error` mapping with a missing
`code` also yields 200 (the KeyError is swallowed); a present but
unparseable `code`, or a non-mapping `error`, raises a
type/parse error that propagates to the caller. -/
theorem c4_response_status_amended :
    (∀ c, clookup c (.str "error") = none → responseStatus c = .ok 200)
    ∧ (∀ c kvs cd n, clookup c (.str "error") = some (.obj kvs) →
        jlookup kvs "code" = some cd → pyIntOf cd = some n → responseStatus c = .ok n)
    ∧ (∀ c kvs, clookup c (.str "error") = some (.obj kvs) →
        jlookup kvs "code" = none → responseStatus c = .ok 200)
    ∧ (∀ c kvs cd, clookup c (.str "error") = some (.obj kvs) →
        jlookup kvs "code" = some cd → pyIntOf cd = none → responseStatus c = .error ())
    ∧ (∀ c e, clookup c (.str "error") = some e → JVal.isObj e = false →
        responseStatus c = .error ())
    ∧ pyIntOfStr "14030" = some 14030 := by
  refine ⟨?_, ?_, ?_, ?_, ?_, rfl⟩
  · intro c h
    simp [responseStatus, h]
  · intro c kvs cd n h1 h2 h3
    simp [responseStatus, h1, h2, h3]
  · intro c kvs h1 h2
    simp [responseStatus, h1, h2]
  · intro c kvs cd h1 h2 h3
    simp [responseStatus, h1, h2, h3]
  · intro c e h1 h2
    cases e
    case obj kvs => simp [JVal.isObj] at h2
    all_goals simp [responseStatus, h1]

/-- C4 witness: the two doctest bodies — no `error` key gives 200, and
`error.code == "14030"` gives the permission-denied status 14030. -/
theorem c4_response_status_witness :
    responseStatus [(.str "api", .obj [("version", .str "1.0.0")])] = .ok 200
    ∧ responseStatus
        [(.str "error", .obj [("code", .str "14030"), ("description", .str "Permission denied")])]
      = .ok 14030 :=
  ⟨c4_response_status_amended.1 _ (by simp [clookup, jkeyEq]),
   c4_response_status_amended.2.1
     [(.str "error", .obj [("code", .str "14030"), ("description", .str "Permission denied")])]
     [("code", .str "14030"), ("description", .str "Permission denied")]
     (.str "14030") 14030 (by simp [clookup, jkeyEq]) (by simp [jlookup])
     (by simp [pyIntOf, pyIntOfStr, digitsVal, isPySpace])⟩

theorem itemInit_base (f : Nat) (kw : List (String × PyObj)) :
    itemInit (f + 1) .item kw = .ok kw := by
  simp [itemInit, Cls.label]

theorem coerceOne_base (f : Nat) (a : PyObj) :
    coerceOne (f + 1) .item a = .ok (coerceBase a) := by
  by_cases h : isInstanceOf a .item
  · simp [coerceOne, coerceBase, h]
  · cases htk : toKwargs a with
    | none => simp [coerceOne, coerceBase, h, htk]
    | some kw => simp [coerceOne, coerceBase, h, htk, itemInit_base]

theorem collFold_base (f : Nat) :
    ∀ (args casted : List PyObj),
      collFold (f + 1) .item casted args
        = .ok (casted ++ firstOccurrences casted ((args.filterMap coerceBase).filter pyTruthy))
  | [], casted => by simp [collFold, firstOccurrences]
  | a :: rest, casted => by
    cases hcb : coerceBase a with
    | none =>
      simp only [collFold, coerceOne_base, hcb, List.filterMap_cons]
      exact collFold_base f rest casted
    | some itm =>
      by_cases ht : pyTruthy itm
      · by_cases hm : casted.any (fun cd => pyEq itm cd)
        · simp only [collFold, coerceOne_base, hcb, ht, hm, List.filterMap_cons,
            List.filter_cons, firstOccurrences]
          simp only [Bool.not_true, Bool.and_false, Bool.false_eq_true, if_false, if_true]
          exact collFold_base f rest casted
        · simp only [collFold, coerceOne_base, hcb, ht, hm, List.filterMap_cons,
            List.filter_cons, firstOccurrences]
          simp only [Bool.not_false, Bool.and_true, Bool.false_eq_true, if_false, if_true]
          rw [collFold_base f rest (casted ++ [itm])]
          simp
      · simp only [collFold, coerceOne_base, hcb, List.filterMap_cons, List.filter_cons, ht]
        simp only [Bool.false_and, Bool.false_eq_true, if_false]
        exact collFold_base f rest casted

/-- C5 counterexample: the empty dict coerces successfully into the
item type (an empty `Item`), yet the collection omits it — so the
result is not exactly the first occurrences of the distinct coercible
elements. -/
theorem c5_empty_coercible_counterexample :
    coerceBase (.pdict []) = some (.pitem .item [])
    ∧ collNew 2 .itemsCollection [.pdict []] = .ok [] := by
  constructor
  · rfl
  · simp [collNew, Cls.itemTypeAttr, collFold_base, firstOccurrences, coerceBase,
      toKwargs, isInstanceOf, pyTruthy]

/-- C5 amended: for every input sequence, the generic collection
constructor returns exactly the first occurrences of the distinct
(by Python equality) coercible elements that are also truthy
(non-empty), in first-seen relative order: duplicates keep the first
occurrence, non-coercible elements are silently omitted, and so are
falsy (empty) coerced items. -/
theorem c5_collection_first_occurrences :
    ∀ (f : Nat) (args : List PyObj),
      collNew (f + 2) .itemsCollection args
        = .ok (firstOccurrences [] ((args.filterMap coerceBase).filter pyTruthy)) := by
  intro f args
  have h := collFold_base f args []
  simpa [collNew, Cls.itemTypeAttr] using h

/-- C5 witness: the docstring example
`ItemsCollection('a', 1, [('a',1),('b',2)], {'a':3,'b':4}, Item(a=5,b=6))`
keeps the three coercible dict-like arguments as Items. -/
theorem c5_collection_first_occurrences_witness :
    collNew 2 .itemsCollection
      [.pstr "a", .pint 1,
       .plist [.plist [.pstr "a", .pint 1], .plist [.pstr "b", .pint 2]],
       .pdict [("a", .pint 3), ("b", .pint 4)],
       .pitem .item [("a", .pint 5), ("b", .pint 6)]]
    = .ok [.pitem .item [("a", .pint 1), ("b", .pint 2)],
           .pitem .item [("a", .pint 3), ("b", .pint 4)],
           .pitem .item [("a", .pint 5), ("b", .pint 6)]] := by
  rw [show (2 : Nat) = 0 + 2 from rfl, c5_collection_first_occurrences 0]
  rfl

/-- C2: constructing a Track from a payload carrying the entity's own
`track` wrapper together with sibling `album` and `artist` fields
raises AttributeError instead of succeeding: the sibling cast
evaluates `LABEL2CLS[k].item_type`, and the entity classes `Album`
and `Artist` do not define `item_type` (only collection classes do). -/
theorem c2_track_sibling_attrError :
    itemInit 5 .track
      [("track", .pdict [("trackCode", .pint 1), ("title", .pstr "t")]),
       ("album", .pdict [("albumCode", .pint 2)]),
       ("artist", .pdict [("artistCode", .pint 3)])] = .exc .attrErr := by
  simp [itemInit, processSiblings, toKwargs, hasKeyP, lookupLastP, removeKeyP,
        LABEL2CLS, ENTITIES, Cls.label, Cls.itemTypeAttr]

/-- C10: a collection never contains a falsy (empty) entity: every
element of a successfully built collection is truthy, and an element
that coerces to an empty entity is dropped while its non-empty
sibling is kept. -/
theorem c10_no_empty_entities :
    (∀ (fuel : Nat) (c : Cls) (args out : List PyObj),
      collNew fuel c args = .ok out → ∀ x ∈ out, pyTruthy x = true)
    ∧ collNew 2 .itemsCollection [.pdict [], .pdict [("a", .pint 1)]]
        = .ok [.pitem .item [("a", .pint 1)]] := by
  constructor
  · have hfold : ∀ (fuel : Nat) (it : Cls) (args casted out : List PyObj),
        collFold fuel it casted args = .ok out →
        (∀ x ∈ casted, pyTruthy x = true) → ∀ x ∈ out, pyTruthy x = true := by
      intro fuel it args
      induction args with
      | nil =>
        intro casted out h hc
        simp only [collFold] at h
        cases h
        exact hc
      | cons a rest ih =>
        intro casted out h hc
        simp only [collFold] at h
        cases hco : coerceOne fuel it a with
        | ok o =>
          cases o with
          | none =>
            rw [hco] at h
            dsimp only at h
            exact ih casted out h hc
          | some itm =>
            rw [hco] at h
            dsimp only at h
            by_cases hcond : (pyTruthy itm && !(casted.any (fun cd => pyEq itm cd))) = true
            · rw [if_pos hcond] at h
              refine ih (casted ++ [itm]) out h ?_
              intro x hx
              rcases List.mem_append.mp hx with hx | hx
              · exact hc x hx
              · rcases List.mem_singleton.mp hx with rfl
                exact ((Bool.and_eq_true _ _).mp hcond).1
            · rw [if_neg hcond] at h
              exact ih casted out h hc
        | exc e => rw [hco] at h; dsimp only at h; cases h
        | nofuel => rw [hco] at h; dsimp only at h; cases h
    intro fuel c args out h
    cases fuel with
    | zero => simp [collNew] at h
    | succ f =>
      simp only [collNew] at h
      cases hit : c.itemTypeAttr with
      | none => rw [hit] at h; dsimp only at h; cases h
      | some it =>
        rw [hit] at h
        dsimp only at h
        exact hfold f it args [] out h (by intro x hx; cases hx)
  · simp [collNew, Cls.itemTypeAttr, collFold_base, firstOccurrences, coerceBase,
      toKwargs, isInstanceOf, pyTruthy, pyEq]

/-- C10 witness: the non-empty entity kept by the concrete collection
above is indeed truthy, via the universal statement. -/
theorem c10_no_empty_entities_witness :
    ∀ x ∈ [PyObj.pitem .item [("a", .pint 1)]], pyTruthy x = true :=
  c10_no_empty_entities.1 2 .itemsCollection [.pdict [], .pdict [("a", .pint 1)]]
    [.pitem .item [("a", .pint 1)]] c10_no_empty_entities.2

/-- C8: an entity whose `api_method` is unbound fails `request` with
NotImplementedError naming the subtype (`<Cls>.api_method`), and
`fromResponseMessage` on a Response whose status is a non-success
code fails with an API `Error` carrying the status description. -/
theorem c8_request_error_paths :
    (∀ (fuel : Nat) (c : Cls) (resp : List (JVal × JVal)),
      c.apiMethodAttr = none →
      itemRequest fuel c resp = .exc (.notImplErr (c.clsName ++ ".api_method")))
    ∧ (∀ (fuel : Nat) (c : Cls) (resp : List (JVal × JVal)) (n : Int),
      responseStatus resp = .ok n → n ≠ 200 →
      fromResponseMessage fuel c resp = .exc (.apiErr (statusDescr n))) := by
  constructor
  · intro fuel c resp h
    simp [itemRequest, h]
  · intro fuel c resp n h1 h2
    simp [fromResponseMessage, h1, h2]

/-- C8 witness: `Item.request` reports `Item.api_method`, and a
permission-denied response (code "14030") fails with the
`Permission denied` description. -/
theorem c8_request_error_paths_witness :
    itemRequest 1 .item [] = .exc (.notImplErr "Item.api_method")
    ∧ fromResponseMessage 1 .tracks
        [(.str "error", .obj [("code", .str "14030"), ("description", .str "Permission denied")])]
      = .exc (.apiErr "Permission denied") := by
  constructor
  · exact c8_request_error_paths.1 1 .item [] rfl
  · have h := c8_request_error_paths.2 1 .tracks
      [(.str "error", .obj [("code", .str "14030"), ("description", .str "Permission denied")])]
      14030 (by simp [responseStatus, clookup, jkeyEq, jlookup, pyIntOf, pyIntOfStr,
        digitsVal, isPySpace]) (by decide)
    rw [h]
    rfl

end Playme
